import Mathlib

/-!
# BrainBoard game-session coordination: a shallow embedding

This file embeds the game-session data model and the session-mutating
operations of the BrainBoard client (a React-Native quiz application backed
by a Firestore document store) and proves, or refutes, the specified
properties of PIN allocation, lobby joining, the lobby-to-playing
transition, and answer submission.

Modelling conventions:
* A Firestore `gameSessions` document is a `SessionData` record; the
  collection is a `Store`, a list of `(document id, SessionData)` pairs
  whose list order stands for the (unspecified) order in which a Firestore
  query returns matching documents, so `querySnapshot.docs[0]` is the first
  list element whose `pin` matches.
* `updateDoc(docRef, { f: v })` is modelled as a record update that replaces
  only the field(s) passed, leaving every other field of the document as it
  was — which is exactly Firestore's `updateDoc` semantics.
* `Math.random()` draws are passed in as explicit parameters: a draw for the
  PIN generator is a natural number `k`, where `k % 900000` plays the role
  of `Math.floor(Math.random() * 900000)` (both range over `0..899999`).
* Timestamps (`new Date().toISOString()`, `serverTimestamp()`) are passed in
  as explicit parameters.
-/

/-- A roster entry, as written by the join code paths:
`{ uid, name, joinedAt, score: 0 }`. -/
structure Player where
  uid : String
  name : String
  joinedAt : String
  score : Nat
deriving DecidableEq, Repr

/-- The `settings` object written by `HostGameMenu.launchLobby`. -/
structure Settings where
  gameDuration : Nat
  maxPlayers : Nat
  timePerQuestion : Nat
  showAnswersAfter : Bool
  nicknameGenerator : Bool
  hostPlays : Bool
  randomizeQuestions : Bool
  randomizeAnswers : Bool
deriving DecidableEq, Repr

/-- A `gameSessions` document, with the fields written by
`HostGameMenu.launchLobby` (src/screens/HostGameMenu.js, lines 63–98).
`status` is the string field the code writes (`'lobby'`, `'playing'`). -/
structure SessionData where
  gameId : String
  hostId : String
  pin : String
  status : String
  players : List Player
  currentQuestionIndex : Nat
  settings : Settings
  createdAt : Nat
deriving DecidableEq, Repr

/-- The `gameSessions` collection: document id paired with document data.
List order models the order in which a query returns matching documents. -/
abbrev Store := List (String × SessionData)

/-! ## PIN generation (HostGameMenu.launchLobby)

`const pin = Math.floor(100000 + Math.random() * 900000).toString();`

For a draw `r ∈ [0,1)`, `Math.floor(100000 + r * 900000)` equals
`100000 + Math.floor(r * 900000)` with `Math.floor(r * 900000) ∈ 0..899999`;
we model the draw by a natural number `k` and take `k % 900000` for
`Math.floor(r * 900000)`. -/

/-- The numeric value of the generated PIN for draw `k`. -/
def genPin (k : Nat) : Nat := 100000 + k % 900000

/-- The PIN string actually stored (`.toString()`). -/
def genPinStr (k : Nat) : String := Nat.repr (genPin k)

/-- Embeds `HostGameMenu.launchLobby` (src/screens/HostGameMenu.js, lines 63–98):
`addDoc(collection(db, 'gameSessions'), {...})` appends a fresh document
with `status: 'lobby'`, `players: []`, `currentQuestionIndex: 0` and the
generated PIN. No check against existing sessions' PINs is performed. -/
def launchLobbyStore (st : Store) (gameId hostId : String) (k : Nat)
    (settings : Settings) (docId : String) (createdAt : Nat) : Store :=
  st ++ [(docId,
    { gameId := gameId
      hostId := hostId
      pin := genPinStr k
      status := "lobby"
      players := []
      currentQuestionIndex := 0
      settings := settings
      createdAt := createdAt })]

/-! ## Joining by PIN (JoinGameScreen.handleJoinGame)

src/screens/JoinGameScreen.js, lines 37–112. -/

/-- The outcomes of `JoinGameScreen.handleJoinGame`: the early return on a
short code, the `Alert` branches, and the successful `updateDoc`. -/
inductive JoinOutcome where
  | invalidCode
  | notFound
  | gameStarted
  | alreadyJoined
  | joined
deriving DecidableEq, Repr

/-- Embeds `JoinGameScreen.handleJoinGame` (src/screens/JoinGameScreen.js,
lines 37–112), as a function of the collection, the typed code, the caller's
uid and display name, and the join timestamp. Mirrors the source steps:
1. reject a code whose length is not 6;
2. query sessions by `pin == gameCode`, take `docs[0]`, `Not Found` if none;
3. reject with the `Game Started` alert when `status !== 'lobby'`;
4. `Already Joined` (no write) when some roster entry has the caller's uid;
5. otherwise `updateDoc` the document's `players` field to
   `[...players, { uid, name, joinedAt, score: 0 }]`. -/
def handleJoinGame (st : Store) (gameCode playerUid playerName joinedAt : String) :
    JoinOutcome × Store :=
  if gameCode.length ≠ 6 then (.invalidCode, st)
  else
    match st.find? (fun d => d.2.pin = gameCode) with
    | none => (.notFound, st)
    | some (sessionId, sessionData) =>
      if sessionData.status ≠ "lobby" then (.gameStarted, st)
      else if sessionData.players.any (fun p => p.uid = playerUid) then
        (.alreadyJoined, st)
      else
        let updatedPlayers := sessionData.players ++
          [{ uid := playerUid, name := playerName, joinedAt := joinedAt, score := 0 }]
        (.joined,
          st.map (fun e =>
            if e.1 = sessionId then (e.1, { e.2 with players := updatedPlayers }) else e))

/-- The message built by the `catch` branch of `handleJoinGame`
(src/screens/JoinGameScreen.js, lines 102–108) from the thrown error's code. -/
def handleJoinGameErrorMessage (errCode : String) : String :=
  if errCode = "permission-denied" then
    "Permission denied. The game may be full or no longer active."
  else "Failed to join the game. Please try again."

/-! ## Joining from the lobby screen (GameScreen.joinWithUsername)

src/screens/GameScreen.js, lines 57–97: no status, capacity or name check;
a freshly generated guest uid; `updateDoc` writes only `players`. -/

/-- Executable model of JavaScript's `String.prototype.trim()`: strips
leading and trailing whitespace. -/
def trimStr (s : String) : String :=
  ⟨((s.data.dropWhile (fun c => c.isWhitespace)).reverse.dropWhile
      (fun c => c.isWhitespace)).reverse⟩

/-- Outcomes of `GameScreen.joinWithUsername`. -/
inductive LobbyJoinOutcome where
  | usernameRequired
  | joined
deriving DecidableEq, Repr

namespace GameScreen

/-- Embeds `GameScreen.joinWithUsername` (src/screens/GameScreen.js, lines 57–97):
trims the typed username, rejects a blank name, then either updates the
name of an existing entry with the caller's uid or pushes a new
`{ uid, name, joinedAt, score: 0 }`, and writes only the `players` field. -/
def joinWithUsername (session : SessionData) (username playerUid joinedAt : String) :
    LobbyJoinOutcome × SessionData :=
  let finalName := trimStr username
  if finalName = "" then (.usernameRequired, session)
  else
    let updatedPlayers :=
      match session.players.findIdx? (fun p => p.uid = playerUid) with
      | some i =>
        session.players.mapIdx (fun j p => if j = i then { p with name := finalName } else p)
      | none =>
        session.players ++
          [{ uid := playerUid, name := finalName, joinedAt := joinedAt, score := 0 }]
    (.joined, { session with players := updatedPlayers })

end GameScreen

/-! ## Joining with a uniqueness check (part_002's GameScreen.joinWithUsername)

src/unnamed/part_002, lines 131–176: same shape, but rejects a name already
present in the session snapshot with the name-taken modal. -/

/-- Outcomes of part_002's `joinWithUsername`. -/
inductive LobbyJoin2Outcome where
  | usernameRequired
  | nameTaken
  | joined
deriving DecidableEq, Repr

namespace Part002

/-- Embeds `joinWithUsername` of src/unnamed/part_002 (lines 131–176): trims the
name, rejects a blank name, rejects with the name-taken modal when
`existingNames.includes(finalName)` over the snapshot's roster
(case-sensitive string equality), otherwise appends a new guest entry (or
updates an entry with the same uid) and writes only `players`. -/
def joinWithUsername (session : SessionData) (nameToUse playerUid joinedAt : String) :
    LobbyJoin2Outcome × SessionData :=
  let finalName := trimStr nameToUse
  if finalName = "" then (.usernameRequired, session)
  else if finalName ∈ session.players.map (fun p => p.name) then
    (.nameTaken, session)
  else
    let updatedPlayers :=
      match session.players.findIdx? (fun p => p.uid = playerUid) with
      | some i =>
        session.players.mapIdx (fun j p => if j = i then { p with name := finalName } else p)
      | none =>
        session.players ++
          [{ uid := playerUid, name := finalName, joinedAt := joinedAt, score := 0 }]
    (.joined, { session with players := updatedPlayers })

end Part002

/-! ## Starting the game (Lobby.handleStartGame)

src/unnamed/part_005, lines 73–90 (and the variant in src/unnamed/part_006,
lines 51–65): host-only, requires at least one player, then an
unconditional `updateDoc { status: 'playing', currentQuestionIndex: 0 }`. -/

/-- Outcomes of `handleStartGame`. -/
inductive StartOutcome where
  | notHost
  | noPlayers
  | started
deriving DecidableEq, Repr

/-- Embeds `Lobby.handleStartGame` (src/unnamed/part_005, lines 73–90): returns
early unless `isHost`; alerts and returns when `players.length === 0`;
otherwise writes `status: 'playing'` and `currentQuestionIndex: 0` with no
condition on the session's current status. `players` is the roster from the
screen's snapshot state; `session` is the document the write lands on. -/
def handleStartGame (isHost : Bool) (players : List Player) (session : SessionData) :
    StartOutcome × SessionData :=
  if ¬isHost then (.notHost, session)
  else if players.length = 0 then (.noPlayers, session)
  else (.started, { session with status := "playing", currentQuestionIndex := 0 })

/-! ## Reachable collection states

The session-mutating writes found in src/ are: `launchLobby` (create),
`handleJoinGame` (roster append), and `handleStartGame` (status overwrite).
`Reachable` closes the empty collection under these operations. Document
ids minted by `addDoc` are unique, so `launch` requires a fresh id. -/

/-- Applies `handleStartGame`'s write to the document `sessionId` of the
collection, with the roster snapshot the Lobby screen holds. -/
def startGameStore (st : Store) (sessionId : String) (isHost : Bool)
    (players : List Player) : Store :=
  st.map (fun e =>
    if e.1 = sessionId then (e.1, (handleStartGame isHost players e.2).2) else e)

/-- Collection states reachable by the session-mutating operations of the
source: an empty collection, `HostGameMenu.launchLobby`,
`JoinGameScreen.handleJoinGame`, and `Lobby.handleStartGame`. -/
inductive Reachable : Store → Prop where
  | empty : Reachable []
  | launch {st gameId hostId k settings docId createdAt} :
      Reachable st → docId ∉ st.map Prod.fst →
      Reachable (launchLobbyStore st gameId hostId k settings docId createdAt)
  | join {st gameCode playerUid playerName joinedAt} :
      Reachable st →
      Reachable (handleJoinGame st gameCode playerUid playerName joinedAt).2
  | start {st sessionId isHost players} :
      Reachable st → Reachable (startGameStore st sessionId isHost players)

/-- The non-ended sessions of the collection holding a given PIN. -/
def livePinHolders (st : Store) (pin : String) : List (String × SessionData) :=
  st.filter (fun d => d.2.pin = pin ∧ d.2.status ≠ "ended")

/-! ## Concurrent joins on one session document

Each joining client executes `JoinGameScreen.handleJoinGame` (lines 44–96):
it reads the session document once (the query snapshot), computes
`updatedPlayers` from that snapshot, and issues
`updateDoc({ players: updatedPlayers })` — an overwrite of the `players`
field that is not conditioned on the document still being what the snapshot
showed. A concurrent execution is a sequence of read and write events, one
pair per client, interleaved arbitrarily. -/

/-- What one joining client asks for. -/
structure JoinReq where
  uid : String
  name : String
  joinedAt : String
deriving DecidableEq, Repr

/-- One event of a concurrent execution: client `i` takes its snapshot of
the session document, or client `i` performs its computed write. -/
inductive JoinEv where
  | read (i : Nat)
  | write (i : Nat)
deriving DecidableEq, Repr

/-- State of a concurrent execution over one session document: the shared
document, each client's snapshot (if taken), and each client's accepted
flag (set when its `updateDoc` was issued). -/
structure ConcState where
  session : SessionData
  snaps : List (Option SessionData)
  accepted : List Bool
deriving DecidableEq, Repr

/-- Starting state: no client has read or written yet. -/
def concInit (reqs : List JoinReq) (s : SessionData) : ConcState :=
  { session := s
    snaps := List.replicate reqs.length none
    accepted := List.replicate reqs.length false }

/-- One step. `read i` stores the current document as client `i`'s
snapshot. `write i` replays `handleJoinGame`'s decision (status check,
uid-duplicate check) against client `i`'s snapshot and, if it passes,
overwrites the shared document's `players` field with
`snapshot.players ++ [new player]`, exactly as the source's `updateDoc`
does. A write without a prior read does nothing (the source always reads
first). -/
def concStep (reqs : List JoinReq) (st : ConcState) : JoinEv → ConcState
  | .read i => { st with snaps := st.snaps.set i (some st.session) }
  | .write i =>
    match reqs[i]?, st.snaps[i]? with
    | some req, some (some snap) =>
      if snap.status ≠ "lobby" then st
      else if snap.players.any (fun p => p.uid = req.uid) then st
      else
        { st with
          session := { st.session with players := snap.players ++
            [{ uid := req.uid, name := req.name, joinedAt := req.joinedAt, score := 0 }] }
          accepted := st.accepted.set i true }
    | _, _ => st

/-- Runs a schedule of interleaved events. -/
def concRun (reqs : List JoinReq) (s : SessionData) (sched : List JoinEv) : ConcState :=
  sched.foldl (concStep reqs) (concInit reqs s)

/-- Number of accepted join calls in a final state. -/
def acceptedCount (st : ConcState) : Nat := st.accepted.count true

/-! ## The Scoring Engine (modelled from the spec)

Modelled from the spec: the Scoring Engine's `submitAnswer` contract (§4.5)
has no implementation under src/ — the only `submitAnswer` in the source
(src/unnamed/part_001, lines 131–134) is a placeholder that logs the chosen
index and shows an alert, recording nothing. The definitions below follow
the spec's words: a submission is accepted only when its question index is
the current one, the per-question sub-state is active, and it arrives
within the time limit; the first accepted submission per (player, question)
is final and later ones return `AlreadySubmitted` without altering the
recorded answer or the score; a correct answer scores a non-increasing
function of elapsed time floored at a minimum non-zero value. -/

/-- Result taxonomy of `submitAnswer` (spec §4.5). -/
inductive SubmitResult where
  | accepted
  | tooLate
  | alreadySubmitted
  | wrongPhase
deriving DecidableEq, Repr

/-- A recorded answer: the chosen option and when it was submitted,
relative to question start. -/
structure Recorded where
  choice : Nat
  submittedAt : Nat
deriving DecidableEq, Repr

/-- Modelled from the spec: the session-side context `submitAnswer` consults
(§4.4–§4.5): the lifecycle status, the current question index, whether the
per-question sub-state is `questionActive`, the question's time limit, its
base point value, and its correct choice. -/
structure QuestionCtx where
  status : String
  currentQuestionIndex : Nat
  questionActive : Bool
  timeLimit : Nat
  basePoints : Nat
  correctChoice : Nat
deriving DecidableEq, Repr

/-- Modelled from the spec: the Scoring Engine's record of accepted
submissions and cumulative scores: one recorded answer per
(player id, question index), and a running score per player. -/
structure ScoreState where
  answers : List ((String × Nat) × Recorded)
  scores : List (String × Nat)
deriving DecidableEq, Repr

/-- Modelled from the spec (§4.5): the score delta of a correct answer is a
function of the base point value and the elapsed fraction of the time
limit, non-increasing in elapsed time, floored at a minimum non-zero value;
incorrect answers award zero. -/
def scoreDelta (basePoints elapsed timeLimit : Nat) : Nat :=
  max 1 (basePoints * (timeLimit - elapsed) / timeLimit)

/-- Looks up a player's cumulative score (0 before any accepted answer). -/
def scoreOf (st : ScoreState) (playerId : String) : Nat :=
  match st.scores.find? (fun e => e.1 = playerId) with
  | some e => e.2
  | none => 0

/-- Adds a delta to a player's cumulative score. -/
def bumpScore (scores : List (String × Nat)) (playerId : String) (delta : Nat) :
    List (String × Nat) :=
  match scores.find? (fun e => e.1 = playerId) with
  | some _ => scores.map (fun e => if e.1 = playerId then (e.1, e.2 + delta) else e)
  | none => scores ++ [(playerId, delta)]

/-- Modelled from the spec: `submitAnswer(sessionId, playerId,
questionIndex, choice, submittedAt)` of §4.5. A second submission for the
same (player, question) returns `AlreadySubmitted` and changes nothing; a
submission for a question other than the current one, outside the active
sub-state, or outside `playing`, is `WrongPhase`; one past the time limit
is `TooLate`; otherwise it is recorded, and a correct choice adds
`scoreDelta` to the player's cumulative score. -/
def submitAnswer (st : ScoreState) (ctx : QuestionCtx) (playerId : String)
    (questionIndex choice submittedAt : Nat) : SubmitResult × ScoreState :=
  if (st.answers.find? (fun e => e.1 = (playerId, questionIndex))).isSome then
    (.alreadySubmitted, st)
  else if ctx.status ≠ "playing" ∨ questionIndex ≠ ctx.currentQuestionIndex ∨
      ¬ctx.questionActive then
    (.wrongPhase, st)
  else if ctx.timeLimit < submittedAt then (.tooLate, st)
  else
    (.accepted,
      { answers := st.answers ++
          [((playerId, questionIndex), { choice := choice, submittedAt := submittedAt })]
        scores :=
          if choice = ctx.correctChoice then
            bumpScore st.scores playerId (scoreDelta ctx.basePoints submittedAt ctx.timeLimit)
          else st.scores })

/-! ## Concrete fixtures used by witnesses and counterexamples -/

/-- The settings of the spec's scenario A (`maxPlayers = 2`). -/
def demoSettings : Settings :=
  { gameDuration := 10
    maxPlayers := 2
    timePerQuestion := 60
    showAnswersAfter := true
    nicknameGenerator := false
    hostPlays := false
    randomizeQuestions := false
    randomizeAnswers := false }

/-- A freshly launched session in the lobby, with the PIN of draw 450000. -/
def lobbySession : SessionData :=
  { gameId := "g1"
    hostId := "h1"
    pin := "550000"
    status := "lobby"
    players := []
    currentQuestionIndex := 0
    settings := demoSettings
    createdAt := 0 }

/-- Roster entry of the first demo player. -/
def annP : Player := { uid := "u1", name := "Ann", joinedAt := "t1", score := 0 }

/-- Roster entry of the second demo player. -/
def benP : Player := { uid := "u2", name := "Ben", joinedAt := "t2", score := 0 }

/-- Roster entry of the third demo player. -/
def cidP : Player := { uid := "u3", name := "Cid", joinedAt := "t3", score := 0 }

/-- Join request of the first concurrent client. -/
def annReq : JoinReq := { uid := "u1", name := "Ann", joinedAt := "t1" }

/-- Join request of the second concurrent client. -/
def benReq : JoinReq := { uid := "u2", name := "Ben", joinedAt := "t2" }

/-- The interleaving in which both clients read the session document before
either writes. -/
def racySched : List JoinEv := [.read 0, .read 1, .write 0, .write 1]

/-- The demo session with Ann already joined. -/
def sessAnn : SessionData := { lobbySession with players := [annP] }

/-- A collection holding only the demo session with Ann joined. -/
def annStore : Store := [("s1", sessAnn)]

/-- The demo session at its two-player capacity. -/
def sessFull : SessionData := { lobbySession with players := [annP, benP] }

/-- A collection holding only the demo session at capacity. -/
def fullStore : Store := [("s1", sessFull)]

/-- One launched session (draw 450000, hence PIN "550000"). -/
def pinStore1 : Store := launchLobbyStore [] "g1" "h1" 450000 demoSettings "s1" 0

/-- A second launch with the same draw while the first session is still in
the lobby. -/
def pinStore2 : Store := launchLobbyStore pinStore1 "g2" "h2" 450000 demoSettings "s2" 1

/-- A collection holding only the empty demo session. -/
def lobbyStore : Store := [("s1", lobbySession)]

/-- The demo session after the host started the game. -/
def playingSession : SessionData := { lobbySession with status := "playing" }

/-- A collection holding only the started demo session. -/
def playingStore : Store := [("s1", playingSession)]

/-- Question context for the scoring-engine demos: a playing session on
question 0, sub-state active, 60-second limit, 100 base points, correct
choice 0. -/
def c9Ctx : QuestionCtx :=
  { status := "playing"
    currentQuestionIndex := 0
    questionActive := true
    timeLimit := 60
    basePoints := 100
    correctChoice := 0 }

/-- The scoring state after one accepted answer from player "u1" on
question 0, submitted 12 seconds in. -/
def c9After : ScoreState := (submitAnswer ⟨[], []⟩ c9Ctx "u1" 0 0 12).2

/-! ## C1 — concurrent joins can lose a write -/

/-- C1: the claim states that for every sequence of concurrent `join` calls
with distinct display names, the final roster size equals the number of
accepted calls with no lost writes. The code contradicts it: each join is
an unconditional read-modify-write of the `players` array
(src/screens/JoinGameScreen.js, lines 82–96), so in the interleaving where
clients "Ann" and "Ben" both read the empty roster before either writes,
both joins are accepted, yet the final roster is `[Ben]`: size 1 ≠ 2, and
Ann's accepted entry has been overwritten. -/
theorem C1_lost_write_interleaving :
    acceptedCount (concRun [annReq, benReq] lobbySession racySched) = 2 ∧
    (concRun [annReq, benReq] lobbySession racySched).session.players = [benP] ∧
    (concRun [annReq, benReq] lobbySession racySched).session.players.length = 1 ∧
    annP ∉ (concRun [annReq, benReq] lobbySession racySched).session.players := by
  refine ⟨by decide, by decide, by decide, by decide⟩

/-! ## C2 — the start-game mutation is not conditional on the status -/

/-- C2 counterexample: the claim states the lobby-to-playing transition
succeeds only if the session's status is still `lobby` at the moment of the
mutation, with a Conflict otherwise. The code's `handleStartGame`
(src/unnamed/part_005, lines 73–90) performs no status check: called by the
host with one player on a session whose status is `"ended"`, it succeeds
and silently overwrites the status with `"playing"`. -/
theorem C2_counterexample_start_from_ended :
    (handleStartGame true [annP] { lobbySession with status := "ended" }).1
      = .started ∧
    (handleStartGame true [annP] { lobbySession with status := "ended" }).2.status
      = "playing" := by
  refine ⟨by decide, by decide⟩

/-- C2 amended: the host "start game" action is performed only by the host,
requires roster size at least 1, and on success sets
`currentQuestionIndex` to 0 — but the mutation is unconditional on the
session's current status: it overwrites any status (there is no Conflict
outcome), as the third conjunct holds with no hypothesis on
`session.status`. -/
theorem C2_start_game_host_roster_index :
    ∀ (isHost : Bool) (players : List Player) (session : SessionData),
      (isHost = false → handleStartGame isHost players session = (.notHost, session)) ∧
      (isHost = true → players = [] →
        handleStartGame isHost players session = (.noPlayers, session)) ∧
      (isHost = true → players ≠ [] →
        handleStartGame isHost players session
          = (.started, { session with status := "playing", currentQuestionIndex := 0 })) := by
  intro isHost players session
  refine ⟨fun h => ?_, fun h h0 => ?_, fun h h0 => ?_⟩
  · subst h; rfl
  · subst h; subst h0; rfl
  · subst h
    have hl : players.length ≠ 0 := fun hc => h0 (List.length_eq_zero.mp hc)
    simp [handleStartGame, hl]

/-- Witness for C2's amended theorem: the host starts the demo session with
one player; the status becomes `"playing"` and the question index 0. -/
theorem C2_start_game_witness :
    handleStartGame true [annP] lobbySession
      = (.started, { lobbySession with status := "playing", currentQuestionIndex := 0 }) :=
  (C2_start_game_host_roster_index true [annP] lobbySession).2.2 rfl (by decide)

/-! ## C3 — two non-ended sessions can hold the same PIN -/

/-- C3: the claim states that in every reachable state at most one
non-ended session holds a given PIN, and that a PIN resolves to the session
it was allocated to as long as that session has not ended. The code
contradicts it: `launchLobby` draws a random PIN with no check against
existing sessions, so two launches with the same draw produce a reachable
collection with two lobby (non-ended) sessions holding `"550000"`, and the
PIN query (`handleJoinGame`'s `docs[0]`) resolves the second session's PIN
to the first session. -/
theorem C3_duplicate_live_pins :
    Reachable pinStore2 ∧
    (livePinHolders pinStore2 (genPinStr 450000)).length = 2 ∧
    ((pinStore2.find? (fun d => d.2.pin = genPinStr 450000)).map Prod.fst)
      = some "s1" ∧
    ("s2", { gameId := "g2", hostId := "h2", pin := genPinStr 450000,
             status := "lobby", players := [], currentQuestionIndex := 0,
             settings := demoSettings, createdAt := 1 }) ∈ pinStore2 := by
  refine ⟨?_, by decide, by decide, by decide⟩
  show Reachable (launchLobbyStore pinStore1 "g2" "h2" 450000 demoSettings "s2" 1)
  refine Reachable.launch ?_ (by decide)
  show Reachable (launchLobbyStore [] "g1" "h1" 450000 demoSettings "s1" 0)
  exact Reachable.launch Reachable.empty (by decide)

/-! ## C4 — PIN allocation: range 100000–999999, single sample, no retries -/

/-- C4 counterexample: the claim states that a candidate PIN currently held
by a non-ended session is rejected and resampled (with bounded retries and
an AllocationExhausted failure). The code contradicts it at a concrete
input: with the collection holding exactly one non-ended session with PIN
"550000", a launch whose draw maps to the same candidate simply creates a
second session with that PIN — the candidate is used, not rejected. -/
theorem C4_counterexample_no_resample :
    (livePinHolders pinStore1 (genPinStr 450000)).length = 1 ∧
    launchLobbyStore pinStore1 "g2" "h2" 450000 demoSettings "s2" 1
      = pinStore1 ++ [("s2",
        { gameId := "g2", hostId := "h2", pin := genPinStr 450000,
          status := "lobby", players := [], currentQuestionIndex := 0,
          settings := demoSettings, createdAt := 1 })] := by
  refine ⟨by decide, by decide⟩

/-- C4 amended: PIN allocation draws a single sample: a 6-digit numeric
string whose value lies in 100000–999999 (uniform over that range as the
draw is uniform — the values 000000–099999 are never produced), and the
session is created with that candidate unconditionally: the equality holds
for every current collection, so there is no duplicate check, no resampling
and no AllocationExhausted failure. -/
theorem C4_allocate_range_single_sample :
    ∀ (k : Nat) (st : Store) (gameId hostId docId : String)
      (settings : Settings) (createdAt : Nat),
      100000 ≤ genPin k ∧ genPin k ≤ 999999 ∧
      (Nat.digits 10 (genPin k)).length = 6 ∧
      launchLobbyStore st gameId hostId k settings docId createdAt
        = st ++ [(docId,
          { gameId := gameId, hostId := hostId, pin := genPinStr k,
            status := "lobby", players := [], currentQuestionIndex := 0,
            settings := settings, createdAt := createdAt })] := by
  intro k st gameId hostId docId settings createdAt
  have hlo : 100000 ≤ genPin k := Nat.le_add_right _ _
  have hhi : genPin k ≤ 999999 := by
    unfold genPin
    omega
  refine ⟨hlo, hhi, ?_, rfl⟩
  have hne : genPin k ≠ 0 := by omega
  rw [Nat.digits_len 10 (genPin k) (by norm_num) hne]
  have hlog : Nat.log 10 (genPin k) = 5 := by
    refine Nat.log_eq_of_pow_le_of_lt_pow ?_ ?_
    · calc (10 : Nat) ^ 5 = 100000 := by norm_num
        _ ≤ genPin k := hlo
    · calc genPin k ≤ 999999 := hhi
        _ < 10 ^ (5 + 1) := by norm_num
  omega

/-! ## Branch lemmas for handleJoinGame, shared by several claims -/

/-- Rewriting lemma: the pin query ignores an update that rewrites only the
`players` field of a document, because the predicate reads only `pin`. -/
theorem find?_pin_map_update (st : Store) (gameCode sessionId : String) (ps : List Player) :
    (st.map (fun e => if e.1 = sessionId then (e.1, { e.2 with players := ps }) else e)).find?
        (fun d => d.2.pin = gameCode)
      = Option.map (fun e => if e.1 = sessionId then (e.1, { e.2 with players := ps }) else e)
          (st.find? (fun d => d.2.pin = gameCode)) := by
  rw [List.find?_map]
  congr 1
  have hp : ((fun d => decide (d.2.pin = gameCode)) ∘
      (fun e => if e.1 = sessionId then (e.1, { e.2 with players := ps }) else e))
      = (fun d : String × SessionData => decide (d.2.pin = gameCode)) := by
    funext e
    by_cases h : e.1 = sessionId <;> simp [Function.comp, h]
  exact congrFun (congrArg List.find? hp) st

/-- The short-code early return of `handleJoinGame`. -/
theorem hjg_invalid {st : Store} {gameCode uid name t : String}
    (hlen : gameCode.length ≠ 6) :
    handleJoinGame st gameCode uid name t = (.invalidCode, st) := by
  unfold handleJoinGame
  rw [if_pos hlen]

/-- The `Not Found` branch of `handleJoinGame`. -/
theorem hjg_notFound {st : Store} {gameCode uid name t : String}
    (hfind : st.find? (fun d => d.2.pin = gameCode) = none)
    (hlen : gameCode.length = 6) :
    handleJoinGame st gameCode uid name t = (.notFound, st) := by
  unfold handleJoinGame
  rw [if_neg (fun h => h hlen), hfind]

/-- The `Game Started` branch of `handleJoinGame`. -/
theorem hjg_gameStarted {st : Store} {gameCode uid name t sessionId : String}
    {s : SessionData}
    (hfind : st.find? (fun d => d.2.pin = gameCode) = some (sessionId, s))
    (hlen : gameCode.length = 6)
    (hstatus : s.status ≠ "lobby") :
    handleJoinGame st gameCode uid name t = (.gameStarted, st) := by
  unfold handleJoinGame
  rw [if_neg (fun h => h hlen), hfind]
  simp [hstatus]

/-- The `Already Joined` branch of `handleJoinGame`: no write happens. -/
theorem hjg_alreadyJoined {st : Store} {gameCode uid name t sessionId : String}
    {s : SessionData}
    (hfind : st.find? (fun d => d.2.pin = gameCode) = some (sessionId, s))
    (hlen : gameCode.length = 6)
    (hstatus : s.status = "lobby")
    (hdup : s.players.any (fun p => p.uid = uid) = true) :
    handleJoinGame st gameCode uid name t = (.alreadyJoined, st) := by
  unfold handleJoinGame
  rw [if_neg (fun h => h hlen), hfind]
  simp [hstatus, hdup]

/-- The successful branch of `handleJoinGame`: the matched document's
`players` field is overwritten with the snapshot roster plus the caller. -/
theorem hjg_joined {st : Store} {gameCode uid name t sessionId : String}
    {s : SessionData}
    (hfind : st.find? (fun d => d.2.pin = gameCode) = some (sessionId, s))
    (hlen : gameCode.length = 6)
    (hstatus : s.status = "lobby")
    (hdup : s.players.any (fun p => p.uid = uid) = false) :
    handleJoinGame st gameCode uid name t
      = (.joined, st.map (fun e =>
          if e.1 = sessionId then
            (e.1, { e.2 with players := s.players ++
              [{ uid := uid, name := name, joinedAt := t, score := 0 }] })
          else e)) := by
  unfold handleJoinGame
  rw [if_neg (fun h => h hlen), hfind]
  simp [hstatus, hdup]

/-- Running `handleJoinGame` twice with the same arguments leaves the
collection exactly as one run left it: in every branch the second call
either fails the same check or, after an accepted first join, takes the
`Already Joined` branch. -/
theorem hjg_idem (st : Store) (gameCode uid name t : String) :
    (handleJoinGame (handleJoinGame st gameCode uid name t).2 gameCode uid name t).2
      = (handleJoinGame st gameCode uid name t).2 := by
  by_cases hlen : gameCode.length = 6
  · cases hfind : st.find? (fun d => d.2.pin = gameCode) with
    | none =>
        rw [hjg_notFound hfind hlen]
        rw [hjg_notFound hfind hlen]
    | some e =>
        obtain ⟨sessionId, s⟩ := e
        by_cases hstatus : s.status = "lobby"
        · by_cases hdup : s.players.any (fun p => p.uid = uid)
          · rw [hjg_alreadyJoined hfind hlen hstatus hdup]
            rw [hjg_alreadyJoined hfind hlen hstatus hdup]
          · have hdup' : s.players.any (fun p => p.uid = uid) = false :=
              Bool.eq_false_iff.mpr hdup
            rw [hjg_joined hfind hlen hstatus hdup']
            set ps := s.players ++ [{ uid := uid, name := name, joinedAt := t, score := 0 }]
              with hps
            have hfind2 :
                (st.map (fun e => if e.1 = sessionId then (e.1, { e.2 with players := ps })
                  else e)).find? (fun d => d.2.pin = gameCode)
                = some (sessionId, { s with players := ps }) := by
              rw [find?_pin_map_update, hfind]
              simp
            have hdup2 : ({ s with players := ps } : SessionData).players.any
                (fun p => p.uid = uid) = true := by
              simp [hps, List.any_append]
            rw [hjg_alreadyJoined hfind2 hlen hstatus hdup2]
        · rw [hjg_gameStarted hfind hlen hstatus]
          rw [hjg_gameStarted hfind hlen hstatus]
  · rw [hjg_invalid hlen]

/-! ## Branch lemmas for the lobby join flows and the scoring engine -/

/-- The append branch of `GameScreen.joinWithUsername`: with a non-blank
name and no roster entry carrying the caller's uid, the player is appended
— note no hypothesis on `session.status` is needed. -/
theorem gs_join_append {s : SessionData} {username uid t : String}
    (hname : trimStr username ≠ "")
    (hfresh : s.players.findIdx? (fun p => p.uid = uid) = none) :
    GameScreen.joinWithUsername s username uid t
      = (.joined, { s with players := s.players ++
          [{ uid := uid, name := trimStr username, joinedAt := t, score := 0 }] }) := by
  unfold GameScreen.joinWithUsername
  rw [if_neg hname, hfresh]

/-- The name-taken branch of part_002's `joinWithUsername`. -/
theorem p002_nameTaken {s : SessionData} {nameToUse uid t : String}
    (hname : trimStr nameToUse ≠ "")
    (htaken : trimStr nameToUse ∈ s.players.map (fun p => p.name)) :
    Part002.joinWithUsername s nameToUse uid t = (.nameTaken, s) := by
  unfold Part002.joinWithUsername
  rw [if_neg hname, if_pos htaken]

/-- The append branch of part_002's `joinWithUsername`. -/
theorem p002_join_append {s : SessionData} {nameToUse uid t : String}
    (hname : trimStr nameToUse ≠ "")
    (hnottaken : trimStr nameToUse ∉ s.players.map (fun p => p.name))
    (hfresh : s.players.findIdx? (fun p => p.uid = uid) = none) :
    Part002.joinWithUsername s nameToUse uid t
      = (.joined, { s with players := s.players ++
          [{ uid := uid, name := trimStr nameToUse, joinedAt := t, score := 0 }] }) := by
  unfold Part002.joinWithUsername
  rw [if_neg hname, if_neg hnottaken, hfresh]

/-- The duplicate guard of the (spec-modelled) `submitAnswer`: when a
recorded answer for (player, question) exists, nothing changes. -/
theorem submitAnswer_already {st : ScoreState} {ctx : QuestionCtx} {pid : String}
    {q c t : Nat}
    (hfound : (st.answers.find? (fun e => e.1 = (pid, q))).isSome = true) :
    submitAnswer st ctx pid q c t = (.alreadySubmitted, st) := by
  unfold submitAnswer
  rw [if_pos hfound]

/-! ## C5 — the status check exists in handleJoinGame but not in
GameScreen.joinWithUsername -/

/-- C5 counterexample: the claim states that every join attempt on a
session whose status is not `lobby` is rejected with the roster unchanged.
`GameScreen.joinWithUsername` (src/screens/GameScreen.js, lines 57–97)
performs no status check: a join attempt on the started demo session
(status `"playing"`) succeeds and appends the player. -/
theorem C5_counterexample_join_while_playing :
    playingSession.status = "playing" ∧
    (GameScreen.joinWithUsername playingSession "Zed" "u9" "t9").1 = .joined ∧
    (GameScreen.joinWithUsername playingSession "Zed" "u9" "t9").2.players
      = [{ uid := "u9", name := "Zed", joinedAt := "t9", score := 0 }] := by
  refine ⟨rfl, by decide, by decide⟩

/-- C5 amended: join attempts that go through `JoinGameScreen`'s
`handleJoinGame` on a non-lobby session are rejected with the
`Game Started` alert and leave the collection unchanged; but joins through
`GameScreen.joinWithUsername` perform no status check at all: whatever the
session's status, a join with a non-blank name and a fresh uid succeeds and
appends the player. -/
theorem C5_join_status_check :
    (∀ (st : Store) (gameCode uid name t sessionId : String) (s : SessionData),
      st.find? (fun d => d.2.pin = gameCode) = some (sessionId, s) →
      gameCode.length = 6 →
      s.status ≠ "lobby" →
      handleJoinGame st gameCode uid name t = (.gameStarted, st)) ∧
    (∀ (s : SessionData) (username uid t : String),
      trimStr username ≠ "" →
      s.players.findIdx? (fun p => p.uid = uid) = none →
      (GameScreen.joinWithUsername s username uid t).1 = .joined ∧
      (GameScreen.joinWithUsername s username uid t).2.players
        = s.players ++ [{ uid := uid, name := trimStr username, joinedAt := t, score := 0 }]) := by
  constructor
  · intro st gameCode uid name t sessionId s hfind hlen hstatus
    exact hjg_gameStarted hfind hlen hstatus
  · intro s username uid t hname hfresh
    rw [gs_join_append hname hfresh]
    exact ⟨rfl, rfl⟩

/-- Witness for C5's theorem: a join by PIN against the started demo
session is rejected with the collection unchanged, and a lobby-screen join
on the very same session appends the player. -/
theorem C5_join_status_check_witness :
    handleJoinGame playingStore "550000" "u9" "Zed" "t9" = (.gameStarted, playingStore) ∧
    (GameScreen.joinWithUsername playingSession "Zed2" "u9" "t9").2.players
      = playingSession.players ++
        [{ uid := "u9", name := "Zed2", joinedAt := "t9", score := 0 }] :=
  ⟨C5_join_status_check.1 playingStore "550000" "u9" "Zed" "t9" "s1" playingSession
      (by decide) (by decide) (by decide),
   (C5_join_status_check.2 playingSession "Zed2" "u9" "t9" (by decide) (by decide)).2⟩

/-! ## C6 — name uniqueness: checked in part_002's flow, absent from the
PIN-entry flow -/

/-- C6 counterexample: the claim states that a join attempt whose display
name is already used by another active player is rejected with NameTaken,
and that among join attempts with the same name exactly one succeeds.
`JoinGameScreen.handleJoinGame` performs no display-name check: starting
from the empty demo lobby, a join with name "Ann" (uid "u1") succeeds, and
a second join with the same name "Ann" (uid "u2") also succeeds, leaving
two roster entries named "Ann". -/
theorem C6_counterexample_same_name_joins_both_succeed :
    handleJoinGame lobbyStore "550000" "u1" "Ann" "t1" = (.joined, annStore) ∧
    (handleJoinGame annStore "550000" "u2" "Ann" "t2").1 = .joined ∧
    (handleJoinGame annStore "550000" "u2" "Ann" "t2").2
      = [("s1", { lobbySession with players :=
          [annP, { uid := "u2", name := "Ann", joinedAt := "t2", score := 0 }] })] := by
  refine ⟨by decide, by decide, by decide⟩

/-- C6 amended: the lobby username flow with the uniqueness check
(part_002's `joinWithUsername`) rejects a trimmed name already present in
the session snapshot it read with the name-taken modal and adds no player,
and of two sequential same-name joins through that flow exactly the first
succeeds; the PIN-entry flow (`handleJoinGame`) performs no display-name
check, so same-name joins through it all succeed (see the
counterexample). -/
theorem C6_name_taken_lobby_join :
    (∀ (s : SessionData) (nameToUse uid t : String),
      trimStr nameToUse ≠ "" →
      trimStr nameToUse ∈ s.players.map (fun p => p.name) →
      Part002.joinWithUsername s nameToUse uid t = (.nameTaken, s)) ∧
    (∀ (s : SessionData) (nameToUse uid1 uid2 t1 t2 : String),
      trimStr nameToUse ≠ "" →
      trimStr nameToUse ∉ s.players.map (fun p => p.name) →
      s.players.findIdx? (fun p => p.uid = uid1) = none →
      (Part002.joinWithUsername s nameToUse uid1 t1).1 = .joined ∧
      Part002.joinWithUsername
          (Part002.joinWithUsername s nameToUse uid1 t1).2 nameToUse uid2 t2
        = (.nameTaken, (Part002.joinWithUsername s nameToUse uid1 t1).2)) := by
  constructor
  · intro s nameToUse uid t hname htaken
    exact p002_nameTaken hname htaken
  · intro s nameToUse uid1 uid2 t1 t2 hname hnottaken hfresh
    rw [p002_join_append hname hnottaken hfresh]
    refine ⟨rfl, ?_⟩
    refine p002_nameTaken hname ?_
    simp

/-- Witness for C6's theorem: in the demo session where "Ann" is joined, a
lobby-flow join with name "Ann" is rejected with the name-taken modal and
no write; and from the empty session, two sequential lobby-flow joins with
name "Bea" end with the second rejected. -/
theorem C6_name_taken_lobby_join_witness :
    Part002.joinWithUsername sessAnn "Ann" "u7" "t7" = (.nameTaken, sessAnn) ∧
    Part002.joinWithUsername
        (Part002.joinWithUsername lobbySession "Bea" "u7" "t7").2 "Bea" "u8" "t8"
      = (.nameTaken, (Part002.joinWithUsername lobbySession "Bea" "u7" "t7").2) :=
  ⟨C6_name_taken_lobby_join.1 sessAnn "Ann" "u7" "t7" (by decide) (by decide),
   (C6_name_taken_lobby_join.2 lobbySession "Bea" "u7" "u8" "t7" "t8"
      (by decide) (by decide) (by decide)).2⟩

/-! ## C7 — no client-side capacity check -/

/-- C7 counterexample: the claim states that a join attempt against a
session whose roster has reached `settings.maxPlayers` returns
Rejected:LobbyFull and appends nothing. In the spec's scenario A
(`maxPlayers = 2`, "Ann" and "Ben" joined), a third join by "Cid" succeeds
and the written roster has three players. -/
theorem C7_counterexample_third_join_full_lobby :
    sessFull.settings.maxPlayers = 2 ∧
    sessFull.players.length = 2 ∧
    (handleJoinGame fullStore "550000" "u3" "Cid" "t3").1 = .joined ∧
    (handleJoinGame fullStore "550000" "u3" "Cid" "t3").2
      = [("s1", { lobbySession with players := [annP, benP, cidP] })] := by
  refine ⟨rfl, rfl, by decide, by decide⟩

/-- C7 amended: the client join path performs no capacity check — a join
against a lobby session whose roster size has reached (or exceeded)
`settings.maxPlayers` still succeeds and appends the player; capacity
enforcement is left to the backend, whose permission-denied error the
client maps to the message "Permission denied. The game may be full or no
longer active.". -/
theorem C7_no_client_capacity_check :
    (∀ (st : Store) (gameCode uid name t sessionId : String) (s : SessionData),
      st.find? (fun d => d.2.pin = gameCode) = some (sessionId, s) →
      gameCode.length = 6 →
      s.status = "lobby" →
      s.players.any (fun p => p.uid = uid) = false →
      s.settings.maxPlayers ≤ s.players.length →
      (handleJoinGame st gameCode uid name t).1 = .joined) ∧
    handleJoinGameErrorMessage "permission-denied"
      = "Permission denied. The game may be full or no longer active." := by
  constructor
  · intro st gameCode uid name t sessionId s hfind hlen hstatus hdup hcap
    rw [hjg_joined hfind hlen hstatus hdup]
  · rfl

/-- Witness for C7's theorem: the scenario-A third join goes through even
though the two-player cap is reached. -/
theorem C7_no_client_capacity_check_witness :
    (handleJoinGame fullStore "550000" "u3" "Cid" "t3").1 = .joined :=
  C7_no_client_capacity_check.1 fullStore "550000" "u3" "Cid" "t3" "s1" sessFull
    (by decide) (by decide) rfl (by decide) (by decide)

/-! ## C8 — rejoin with an already-present uid is idempotent -/

/-- C8: a join whose caller uid is already on the roster takes the
`Already Joined` branch — no error, no append, collection unchanged — and
running the join twice with the same arguments leaves the collection
exactly as one run left it, so joining twice equals joining once. -/
theorem C8_rejoin_idempotent :
    (∀ (st : Store) (gameCode uid name t sessionId : String) (s : SessionData),
      st.find? (fun d => d.2.pin = gameCode) = some (sessionId, s) →
      gameCode.length = 6 →
      s.status = "lobby" →
      s.players.any (fun p => p.uid = uid) = true →
      handleJoinGame st gameCode uid name t = (.alreadyJoined, st)) ∧
    (∀ (st : Store) (gameCode uid name t : String),
      (handleJoinGame (handleJoinGame st gameCode uid name t).2 gameCode uid name t).2
        = (handleJoinGame st gameCode uid name t).2) := by
  constructor
  · intro st gameCode uid name t sessionId s hfind hlen hstatus hdup
    exact hjg_alreadyJoined hfind hlen hstatus hdup
  · intro st gameCode uid name t
    exact hjg_idem st gameCode uid name t

/-- Witness for C8's theorem: Ann (uid "u1") rejoining the demo session is
told "Already Joined" and the collection is untouched. -/
theorem C8_rejoin_idempotent_witness :
    handleJoinGame annStore "550000" "u1" "Ann" "t9" = (.alreadyJoined, annStore) :=
  C8_rejoin_idempotent.1 annStore "550000" "u1" "Ann" "t9" "s1" sessAnn
    (by decide) (by decide) rfl (by decide)

/-! ## C9 — the first accepted answer per (player, question) is final -/

/-- C9 (spec-modelled): after the first accepted submission for a
(player, question) pair, every subsequent submission for the same pair —
whatever its choice, timing, or the question context at that later moment —
returns AlreadySubmitted and leaves the score state (recorded answer and
scores) exactly as the first accepted call left it. -/
theorem C9_submit_answer_first_final :
    ∀ (st : ScoreState) (ctx : QuestionCtx) (playerId : String)
      (questionIndex choice submittedAt : Nat) (st1 : ScoreState)
      (ctx2 : QuestionCtx) (choice2 submittedAt2 : Nat),
      submitAnswer st ctx playerId questionIndex choice submittedAt = (.accepted, st1) →
      submitAnswer st1 ctx2 playerId questionIndex choice2 submittedAt2
        = (.alreadySubmitted, st1) := by
  intro st ctx pid q c t st1 ctx2 c2 t2 h
  unfold submitAnswer at h
  split_ifs at h with h1 h2 h3 h4
  · simp at h
  · simp at h
  · simp at h
  all_goals
    rw [Prod.mk.injEq] at h
    obtain ⟨-, hst⟩ := h
    have hans : st1.answers = st.answers ++
        [((pid, q), { choice := c, submittedAt := t })] := by
      rw [← hst]
    have hfound : ((st1.answers).find? (fun e => e.1 = (pid, q))).isSome = true := by
      rw [hans]
      apply List.find?_isSome.mpr
      exact ⟨((pid, q), { choice := c, submittedAt := t }), by simp, by simp⟩
    exact submitAnswer_already hfound

/-- Witness for C9's theorem: player "u1" answers question 0 at second 12
(accepted); a retry at second 50 with a different choice returns
AlreadySubmitted and changes nothing. -/
theorem C9_submit_answer_first_final_witness :
    submitAnswer c9After c9Ctx "u1" 0 1 50 = (.alreadySubmitted, c9After) :=
  C9_submit_answer_first_final ⟨[], []⟩ c9Ctx "u1" 0 0 12 c9After c9Ctx 1 50 (by decide)

/-! ## C10 — a successful join writes only the players field, preserving
the snapshot roster and appending the new player -/

/-- C10: on the success path of both join code paths, the write touches
only the `players` field — `gameId`, `hostId`, `pin`, `status`,
`currentQuestionIndex`, `settings` and `createdAt` are all carried over
unchanged — and the written array is the snapshot roster, in order,
with the new player appended at the end carrying score 0 and the join
timestamp. -/
theorem C10_join_frame :
    (∀ (sessionId : String) (s : SessionData) (gameCode uid name t : String),
      s.pin = gameCode →
      gameCode.length = 6 →
      s.status = "lobby" →
      s.players.any (fun p => p.uid = uid) = false →
      handleJoinGame [(sessionId, s)] gameCode uid name t
        = (.joined, [(sessionId,
            { gameId := s.gameId, hostId := s.hostId, pin := s.pin,
              status := s.status, players := s.players ++
                [{ uid := uid, name := name, joinedAt := t, score := 0 }],
              currentQuestionIndex := s.currentQuestionIndex,
              settings := s.settings, createdAt := s.createdAt })])) ∧
    (∀ (s : SessionData) (username uid t : String),
      trimStr username ≠ "" →
      s.players.findIdx? (fun p => p.uid = uid) = none →
      GameScreen.joinWithUsername s username uid t
        = (.joined,
            { gameId := s.gameId, hostId := s.hostId, pin := s.pin,
              status := s.status, players := s.players ++
                [{ uid := uid, name := trimStr username, joinedAt := t, score := 0 }],
              currentQuestionIndex := s.currentQuestionIndex,
              settings := s.settings, createdAt := s.createdAt })) := by
  constructor
  · intro sessionId s gameCode uid name t hpin hlen hstatus hdup
    have hfind : ([(sessionId, s)] : Store).find? (fun d => d.2.pin = gameCode)
        = some (sessionId, s) := by
      simp [List.find?_cons, hpin]
    rw [hjg_joined hfind hlen hstatus hdup]
    simp
  · intro s username uid t hname hfresh
    rw [gs_join_append hname hfresh]

/-- Witness for C10's theorem: "Zed" joins the empty demo session by PIN;
the written document differs from the snapshot only in `players`, which
gains exactly Zed's entry with score 0. -/
theorem C10_join_frame_witness :
    handleJoinGame lobbyStore "550000" "u9" "Zed" "t9"
      = (.joined, [("s1",
          { gameId := lobbySession.gameId, hostId := lobbySession.hostId,
            pin := lobbySession.pin, status := lobbySession.status,
            players := lobbySession.players ++
              [{ uid := "u9", name := "Zed", joinedAt := "t9", score := 0 }],
            currentQuestionIndex := lobbySession.currentQuestionIndex,
            settings := lobbySession.settings,
            createdAt := lobbySession.createdAt })]) :=
  C10_join_frame.1 "s1" lobbySession "550000" "u9" "Zed" "t9" rfl (by decide) rfl (by decide)
